import Mathlib

/-!
Shallow embedding of the browser-tools-context-server extension
(src/src/lib.rs): the command table (get_api_params), the response
normalizer (process_api_response and the endpoint formatters), and the
dispatcher (run_slash_command), together with a model of serde_json
parsing and pretty-printing.  JSON numbers are exact rationals
constrained to serde_json's number model: integer literals in u64/i64
range are exact, every other literal is rounded to the nearest IEEE-754
binary64 value, and the audit score arithmetic multiplies and rounds in
binary64.  The wall-clock reading used for payload timestamps is an
explicit parameter; the HTTP transport is an explicit function argument
and every issued request is recorded in a trace.
-/

set_option maxRecDepth 16384

namespace BrowserTools

/-! IEEE-754 binary64 model: serde_json stores non-integer (and
out-of-u64/i64-range) numbers as the nearest f64, and the audit formatter
multiplies and rounds in f64.  `f64round` rounds an exact rational to the
nearest binary64 value (round to nearest, ties to even; subnormals
flushed at the 2^-1074 granularity), as an exact rational again; a result
of magnitude ≥ 2^1024 stands for infinity. -/

/-- Round `n / d` to the nearest natural number, ties to even. -/
def roundNearestEven (n d : ℕ) : ℕ :=
  let t := n / d
  let r := n % d
  if 2 * r < d then t
  else if d < 2 * r then t + 1
  else if t % 2 = 0 then t else t + 1

/-- Bit length of a natural number, fueled. -/
def natBitsF : ℕ → ℕ → ℕ
  | 0, _ => 0
  | fuel + 1, n => if n = 0 then 0 else natBitsF fuel (n / 2) + 1

/-- Bit length: `natBits n = ⌊log2 n⌋ + 1` for `n ≥ 1`, and `0` for `0`. -/
def natBits (n : ℕ) : ℕ :=
  natBitsF n n

/-- Does `n / d ≥ c * 2^e` hold? (exact comparison). -/
def scaledGe (n d c : ℕ) (e : ℤ) : Bool :=
  if 0 ≤ e then c * d * 2 ^ e.toNat ≤ n else c * d ≤ n * 2 ^ (-e).toNat

/-- Round an exact rational to the nearest IEEE-754 binary64 value (ties to
even), returned as an exact rational.  Normal results are `m * 2^e` with
`2^52 ≤ m ≤ 2^53`; subnormals are rounded at granularity `2^-1074`; a
result of magnitude `≥ 2^1024` stands for overflow to infinity. -/
def f64round (q : ℚ) : ℚ :=
  if q.num = 0 then 0
  else
    let n := q.num.natAbs
    let d := q.den
    let k : ℤ := (natBits n : ℤ) - (natBits d : ℤ)
    let e0 : ℤ := k - 53
    let e1 : ℤ := if scaledGe n d (2 ^ 53) e0 then e0 + 1 else e0
    let e2 : ℤ := if e1 < -1074 then -1074 else e1
    let m : ℕ :=
      if 0 ≤ e2 then roundNearestEven n (d * 2 ^ e2.toNat)
      else roundNearestEven (n * 2 ^ (-e2).toNat) d
    let v : ℚ :=
      if 0 ≤ e2 then ((m * 2 ^ e2.toNat : ℕ) : ℚ) else mkRat (m : ℤ) (2 ^ (-e2).toNat)
    if q.num < 0 then -v else v

/-- JSON values as produced by the modelled serde_json parser. -/
inductive Json where
  | null : Json
  | bool (b : Bool) : Json
  | num (q : ℚ) : Json
  | str (s : String) : Json
  | arr (elems : List Json) : Json
  | obj (fields : List (String × Json)) : Json

/-- Field lookup in an object's field list (keys are unique by construction). -/
def lookupField (fields : List (String × Json)) (key : String) : Option Json :=
  (fields.find? (fun p => p.1 == key)).map (·.2)

/-- `Value::get(key)`: field lookup, `none` on non-objects. -/
def Json.getField : Json → String → Option Json
  | .obj fields, key => lookupField fields key
  | _, _ => none

/-- `Value::as_str`. -/
def Json.asStr : Json → Option String
  | .str s => some s
  | _ => none

/-- `Value::as_array`. -/
def Json.asArr : Json → Option (List Json)
  | .arr elems => some elems
  | _ => none

/-- `Value::as_f64`: every number variant converts; u64/i64-stored
integers are rounded to the nearest f64 (f64-stored values are already
binary64 values, on which `f64round` is the identity). -/
def Json.asF64 : Json → Option ℚ
  | .num q => some (f64round q)
  | _ => none

/-- Insert with override, as serde_json's map insert (last duplicate wins). -/
def objInsert (fields : List (String × Json)) (key : String) (v : Json) :
    List (String × Json) :=
  if fields.any (fun p => p.1 == key) then
    fields.map (fun p => if p.1 == key then (key, v) else p)
  else
    fields ++ [(key, v)]

/-- JSON whitespace: space, tab, line feed, carriage return. -/
def isJsonWs (c : Char) : Bool :=
  c == ' ' || c == '\t' || c == '\n' || c == '\r'

/-- Skip leading JSON whitespace. -/
def skipWs (cs : List Char) : List Char :=
  cs.dropWhile isJsonWs

def isHexDigit (c : Char) : Bool :=
  c.isDigit || ('a' ≤ c && c ≤ 'f') || ('A' ≤ c && c ≤ 'F')

def hexVal (c : Char) : Nat :=
  if c.isDigit then c.toNat - 48
  else if 'a' ≤ c && c ≤ 'f' then c.toNat - 87
  else if 'A' ≤ c && c ≤ 'F' then c.toNat - 55
  else 0

def digitsToNat (cs : List Char) : Nat :=
  cs.foldl (fun a c => a * 10 + (c.toNat - 48)) 0

/-- Rational addition through `mkRat` (kernel-reducible). -/
def ratAdd (a b : ℚ) : ℚ :=
  mkRat (a.num * b.den + b.num * a.den) (a.den * b.den)

/-- Rational multiplication through `mkRat` (kernel-reducible). -/
def ratMul (a b : ℚ) : ℚ :=
  mkRat (a.num * b.num) (a.den * b.den)

/-- Multiply a rational by `10^mag` or `10^(-mag)` (decimal exponent). -/
def ratScale10 (q : ℚ) (expNeg : Bool) (mag : ℕ) : ℚ :=
  if expNeg then mkRat q.num (q.den * 10 ^ mag) else mkRat (q.num * 10 ^ mag) q.den

/-- Parse the body of a JSON string literal (opening quote already consumed),
fueled by the input length.  Mirrors serde_json: the standard escapes, `\u`
hex escapes with surrogate pairs, errors on lone surrogates and on raw
control characters. -/
def parseStringBody : Nat → List Char → List Char → Except String (String × List Char)
  | 0, _, _ => Except.error "string recursion limit exceeded"
  | _ + 1, acc, [] => Except.error ("EOF while parsing a string" ++ String.mk acc.reverse)
  | fuel + 1, acc, c :: rest =>
    if c == '"' then
      Except.ok (String.mk acc.reverse, rest)
    else if c == '\\' then
      match rest with
      | [] => Except.error "EOF while parsing a string escape"
      | e :: rest1 =>
        if e == '"' then parseStringBody fuel ('"' :: acc) rest1
        else if e == '\\' then parseStringBody fuel ('\\' :: acc) rest1
        else if e == '/' then parseStringBody fuel ('/' :: acc) rest1
        else if e == 'b' then parseStringBody fuel ('\x08' :: acc) rest1
        else if e == 'f' then parseStringBody fuel ('\x0c' :: acc) rest1
        else if e == 'n' then parseStringBody fuel ('\n' :: acc) rest1
        else if e == 'r' then parseStringBody fuel ('\r' :: acc) rest1
        else if e == 't' then parseStringBody fuel ('\t' :: acc) rest1
        else if e == 'u' then
          match rest1 with
          | h1 :: h2 :: h3 :: h4 :: rest2 =>
            if isHexDigit h1 && isHexDigit h2 && isHexDigit h3 && isHexDigit h4 then
              let n := ((hexVal h1 * 16 + hexVal h2) * 16 + hexVal h3) * 16 + hexVal h4
              if 0xD800 ≤ n && n ≤ 0xDBFF then
                match rest2 with
                | '\\' :: 'u' :: k1 :: k2 :: k3 :: k4 :: rest3 =>
                  if isHexDigit k1 && isHexDigit k2 && isHexDigit k3 && isHexDigit k4 then
                    let m := ((hexVal k1 * 16 + hexVal k2) * 16 + hexVal k3) * 16 + hexVal k4
                    if 0xDC00 ≤ m && m ≤ 0xDFFF then
                      let cp := 0x10000 + (n - 0xD800) * 0x400 + (m - 0xDC00)
                      parseStringBody fuel (Char.ofNat cp :: acc) rest3
                    else Except.error "lone leading surrogate in hex escape"
                  else Except.error "invalid hex escape"
                | _ => Except.error "unexpected end of hex escape"
              else if 0xDC00 ≤ n && n ≤ 0xDFFF then
                Except.error "lone trailing surrogate in hex escape"
              else
                parseStringBody fuel (Char.ofNat n :: acc) rest2
            else Except.error "invalid hex escape"
          | _ => Except.error "invalid hex escape"
        else Except.error "invalid escape"
    else if c.toNat < 0x20 then
      Except.error "control character in string"
    else
      parseStringBody fuel (c :: acc) rest

/-- Store a parsed float value: round the exact magnitude to the nearest
binary64; a result of magnitude `≥ 2^1024` is serde's "number out of
range" error. -/
def finishF64 (neg : Bool) (v : ℚ) (rest : List Char) : Except String (Json × List Char) :=
  let w := f64round v
  if ((2 ^ 1024 : ℕ) : ℚ) ≤ w then Except.error "number out of range"
  else Except.ok (Json.num (if neg then -w else w), rest)

/-- Store a parsed integer literal: exact when it fits u64 (or i64 when
negative), as serde's integer number variants; otherwise fall back to the
nearest f64. -/
def finishInt (neg : Bool) (n : ℕ) (rest : List Char) : Except String (Json × List Char) :=
  if neg then
    if n ≤ 2 ^ 63 then Except.ok (Json.num (-(n : ℚ)), rest)
    else finishF64 true (n : ℚ) rest
  else
    if n ≤ 2 ^ 64 - 1 then Except.ok (Json.num (n : ℚ), rest)
    else finishF64 false (n : ℚ) rest

/-- Parse the optional exponent of a float literal and store the value as
the nearest binary64. -/
def parseNumberF64 (neg : Bool) (mant : ℚ) (cs : List Char) :
    Except String (Json × List Char) :=
  match cs with
  | e :: r =>
    if e == 'e' || e == 'E' then
      let (expNeg, r1) :=
        match r with
        | '-' :: r2 => (true, r2)
        | '+' :: r2 => (false, r2)
        | _ => (false, r)
      let expDigits := r1.takeWhile Char.isDigit
      if expDigits.isEmpty then
        Except.error "invalid number: expected exponent digits"
      else
        finishF64 neg (ratScale10 mant expNeg (digitsToNat expDigits))
          (r1.dropWhile Char.isDigit)
    else finishF64 neg mant cs
  | [] => finishF64 neg mant cs

/-- Parse a JSON number: optional minus, integer part without leading
zeros, optional fraction, optional exponent.  As serde_json: a literal
with no fraction and no exponent is stored as an exact u64/i64 when it
fits; any other literal is stored as the nearest binary64 (error when it
overflows to infinity). -/
def parseNumber (cs : List Char) : Except String (Json × List Char) :=
  let (neg, cs1) :=
    match cs with
    | '-' :: r => (true, r)
    | _ => (false, cs)
  let intDigits := cs1.takeWhile Char.isDigit
  let cs2 := cs1.dropWhile Char.isDigit
  if intDigits.isEmpty then
    Except.error "invalid number"
  else if intDigits.headD '0' == '0' && intDigits.length > 1 then
    Except.error "invalid number: leading zero"
  else
    let intNat := digitsToNat intDigits
    match cs2 with
    | '.' :: r =>
      let fracDigits := r.takeWhile Char.isDigit
      if fracDigits.isEmpty then
        Except.error "invalid number: expected fraction digits"
      else
        parseNumberF64 neg
          (ratAdd (intNat : ℚ) (mkRat (digitsToNat fracDigits : ℤ) (10 ^ fracDigits.length)))
          (r.dropWhile Char.isDigit)
    | c :: _ =>
      if c == 'e' || c == 'E' then parseNumberF64 neg (intNat : ℚ) cs2
      else finishInt neg intNat cs2
    | [] => finishInt neg intNat cs2

mutual

/-- Parse one JSON value, fueled. -/
def parseValueF : Nat → List Char → Except String (Json × List Char)
  | 0, _ => Except.error "recursion limit exceeded"
  | fuel + 1, cs =>
    let cs := skipWs cs
    match cs with
    | [] => Except.error "EOF while parsing a value"
    | 'n' :: 'u' :: 'l' :: 'l' :: rest => Except.ok (Json.null, rest)
    | 't' :: 'r' :: 'u' :: 'e' :: rest => Except.ok (Json.bool true, rest)
    | 'f' :: 'a' :: 'l' :: 's' :: 'e' :: rest => Except.ok (Json.bool false, rest)
    | '"' :: rest =>
      match parseStringBody (rest.length + 1) [] rest with
      | Except.error e => Except.error e
      | Except.ok (s, rest1) => Except.ok (Json.str s, rest1)
    | '[' :: rest =>
      let rest1 := skipWs rest
      match rest1 with
      | ']' :: rest2 => Except.ok (Json.arr [], rest2)
      | _ => parseElemsF fuel [] rest1
    | '\x7b' :: rest =>
      let rest1 := skipWs rest
      match rest1 with
      | '\x7d' :: rest2 => Except.ok (Json.obj [], rest2)
      | _ => parseMembersF fuel [] rest1
    | c :: _ =>
      if c == '-' || c.isDigit then parseNumber cs
      else Except.error "expected value"

/-- Parse the remaining elements of a non-empty array (accumulator reversed). -/
def parseElemsF : Nat → List Json → List Char → Except String (Json × List Char)
  | 0, _, _ => Except.error "recursion limit exceeded"
  | fuel + 1, acc, cs =>
    match parseValueF fuel cs with
    | Except.error e => Except.error e
    | Except.ok (v, cs1) =>
      let cs2 := skipWs cs1
      match cs2 with
      | ']' :: rest => Except.ok (Json.arr (v :: acc).reverse, rest)
      | ',' :: rest => parseElemsF fuel (v :: acc) rest
      | _ => Except.error "expected comma or right bracket"

/-- Parse the remaining members of a non-empty object (duplicates: last wins). -/
def parseMembersF : Nat → List (String × Json) → List Char → Except String (Json × List Char)
  | 0, _, _ => Except.error "recursion limit exceeded"
  | fuel + 1, acc, cs =>
    let cs := skipWs cs
    match cs with
    | '"' :: rest =>
      match parseStringBody (rest.length + 1) [] rest with
      | Except.error e => Except.error e
      | Except.ok (key, cs1) =>
        let cs2 := skipWs cs1
        match cs2 with
        | ':' :: cs3 =>
          match parseValueF fuel cs3 with
          | Except.error e => Except.error e
          | Except.ok (v, cs4) =>
            let acc1 := objInsert acc key v
            let cs5 := skipWs cs4
            match cs5 with
            | '\x7d' :: rest2 => Except.ok (Json.obj acc1, rest2)
            | ',' :: rest2 => parseMembersF fuel acc1 rest2
            | _ => Except.error "expected comma or right brace"
        | _ => Except.error "expected colon"
    | _ => Except.error "key must be a string"

end

/-- `serde_json::from_str::<Value>`: parse a complete JSON document,
rejecting trailing non-whitespace. -/
def parseJsonStr (s : String) : Except String Json :=
  match parseValueF (s.length + 2) s.data with
  | Except.error e => Except.error e
  | Except.ok (v, rest) =>
    if (skipWs rest).isEmpty then Except.ok v
    else Except.error "trailing characters"

/-- JSON string escaping as serde_json's serializer: quote, backslash,
the short control escapes, and `\u00XX` for remaining control characters. -/
def escapeJsonChar (c : Char) : String :=
  if c == '"' then "\\\""
  else if c == '\\' then "\\\\"
  else if c == '\x08' then "\\b"
  else if c == '\x0c' then "\\f"
  else if c == '\n' then "\\n"
  else if c == '\r' then "\\r"
  else if c == '\t' then "\\t"
  else if c.toNat < 0x20 then
    let hi := c.toNat / 16
    let lo := c.toNat % 16
    let hexDigit := fun (n : Nat) =>
      if n < 10 then Char.ofNat (48 + n) else Char.ofNat (87 + n)
    String.mk ['\\', 'u', '0', '0', hexDigit hi, hexDigit lo]
  else String.mk [c]

def escapeJsonString (s : String) : String :=
  String.join (s.data.map escapeJsonChar)

/-- Render a JSON number: integers without a point, decimal fractions in
fixed notation with the least number of digits. -/
def numToString (q : ℚ) : String :=
  if q.den = 1 then toString q.num
  else
    let n := q.num.natAbs
    match (List.range 1101).find? (fun k =>
      0 < k &&
        decide (f64round (mkRat (roundNearestEven (n * 10 ^ k) q.den : ℤ) (10 ^ k))
          = mkRat (n : ℤ) q.den)) with
    | some k =>
      let a := roundNearestEven (n * 10 ^ k) q.den
      let intPart := a / 10 ^ k
      let fracPart := a % 10 ^ k
      let fracStr := toString fracPart
      let padded := String.mk (List.replicate (k - fracStr.length) '0') ++ fracStr
      (if q.num < 0 then "-" else "") ++ toString intPart ++ "." ++ padded
    | none =>
      (if q.num < 0 then "-" else "") ++ toString n ++ "/" ++ toString q.den

mutual

/-- serde_json `to_string_pretty`: two-space indentation, `": "` key
separator, empty containers on one line. -/
def prettyJson : Json → String → String
  | Json.null, _ => "null"
  | Json.bool true, _ => "true"
  | Json.bool false, _ => "false"
  | Json.num q, _ => numToString q
  | Json.str s, _ => "\"" ++ escapeJsonString s ++ "\""
  | Json.arr [], _ => "[]"
  | Json.arr (v :: vs), ind =>
    "[\n" ++ prettyElems (v :: vs) (ind ++ "  ") ++ "\n" ++ ind ++ "]"
  | Json.obj [], _ => "\x7b\x7d"
  | Json.obj (f :: fs), ind =>
    "\x7b\n" ++ prettyFields (f :: fs) (ind ++ "  ") ++ "\n" ++ ind ++ "\x7d"

def prettyElems : List Json → String → String
  | [], _ => ""
  | [v], ind => ind ++ prettyJson v ind
  | v :: v1 :: vs, ind =>
    ind ++ prettyJson v ind ++ ",\n" ++ prettyElems (v1 :: vs) ind

def prettyFields : List (String × Json) → String → String
  | [], _ => ""
  | [(k, v)], ind => ind ++ "\"" ++ escapeJsonString k ++ "\": " ++ prettyJson v ind
  | (k, v) :: f1 :: fs, ind =>
    ind ++ "\"" ++ escapeJsonString k ++ "\": " ++ prettyJson v ind ++ ",\n" ++
      prettyFields (f1 :: fs) ind

end

/-- `serde_json::to_string_pretty(&data).unwrap_or_default()` (serialization
of a `Value` cannot fail). -/
def toStringPretty (data : Json) : String :=
  prettyJson data ""

/-- The expected response envelope (`struct ApiResponse`): `status` is
required, `data` defaults to null, `message` defaults to the empty string. -/
structure ApiResponse where
  status : String
  data : Json
  message : String

/-- `serde_json::from_str::<ApiResponse>`: a JSON object with a string
`status`, optional `data` (any JSON), optional string `message`. -/
def parseApiResponse (s : String) : Except String ApiResponse :=
  match parseJsonStr s with
  | Except.error e => Except.error e
  | Except.ok (Json.obj fields) =>
    match lookupField fields "status" with
    | some (Json.str st) =>
      let d := (lookupField fields "data").getD Json.null
      match lookupField fields "message" with
      | some (Json.str m) => Except.ok ⟨st, d, m⟩
      | some _ => Except.error "invalid type for field message"
      | none => Except.ok ⟨st, d, ""⟩
    | some _ => Except.error "invalid type for field status"
    | none => Except.error "missing field status"
  | Except.ok _ => Except.error "invalid type: expected struct ApiResponse"

/-- Floor of a rational as an integer (via floor division of the
numerator by the denominator). -/
def ratFloor (q : ℚ) : ℤ :=
  Int.fdiv q.num q.den

/-- Ceiling of a rational as an integer. -/
def ratCeil (q : ℚ) : ℤ :=
  -Int.fdiv (-q.num) q.den

/-- `f64::round`: nearest integer, halves away from zero. -/
def rust_round (q : ℚ) : ℤ :=
  if 0 ≤ q then ratFloor (ratAdd q (mkRat 1 2)) else ratCeil (ratAdd q (mkRat (-1) 2))

/-- `as i32`: saturating cast. -/
def i32_sat (n : ℤ) : ℤ :=
  if n < -2147483648 then -2147483648
  else if 2147483647 < n then 2147483647
  else n

/-- The `(score * 100.0).round() as i32` computation: f64 multiplication
(exact product, rounded back to binary64), f64::round, and the saturating
i32 cast (an overflowing product stands for ±infinity and saturates). -/
def audit_percentage (score : ℚ) : ℤ :=
  let prod := f64round (ratMul score 100)
  if ((2 ^ 1024 : ℕ) : ℚ) ≤ prod then 2147483647
  else if prod ≤ -(((2 ^ 1024 : ℕ) : ℚ)) then -2147483648
  else i32_sat (rust_round prod)

/-- The `score` local of `format_audit_response`. -/
def audit_score_part (data : Json) : String :=
  match (data.getField "score").bind Json.asF64 with
  | some score =>
    "Overall Score: " ++ toString (audit_percentage score) ++ "%\n"
  | none => ""

/-- The `issues` local of `format_audit_response`. -/
def audit_issues_part (data : Json) : String :=
  match (data.getField "issues").bind Json.asArr with
  | some issues =>
    if issues.isEmpty then "\nNo issues found!"
    else
      "\nIssues Found:\n" ++ String.join (issues.enum.map (fun p =>
        let title := ((p.2.getField "title").bind Json.asStr).getD "Unknown issue"
        let description := ((p.2.getField "description").bind Json.asStr).getD ""
        "\n" ++ toString (p.1 + 1) ++ ". " ++ title ++ "\n" ++
          (if description = "" then "" else "   " ++ description ++ "\n")))
  | none => ""

/-- The `audit_type` local of `format_audit_response`. -/
def audit_type_name (endpoint : String) : String :=
  match endpoint with
  | "accessibility-audit" => "Accessibility"
  | "performance-audit" => "Performance"
  | "seo-audit" => "SEO"
  | "best-practices-audit" => "Best Practices"
  | "nextjs-audit" => "NextJS"
  | _ => "Unknown"

def format_audit_response (endpoint : String) (data : Json) : String :=
  let audit_type := audit_type_name endpoint
  let score := audit_score_part data
  let issues := audit_issues_part data
  if score ≠ "" ∨ issues ≠ "" then
    audit_type ++ " Audit Results:\n\n" ++ score ++ issues
  else
    audit_type ++ " Audit Results:\n\n" ++ toStringPretty data

/-- ASCII model of `str::to_uppercase`. -/
def strToUpper (s : String) : String :=
  String.mk (s.data.map Char.toUpper)

/-- `Vec::join(sep)`. -/
def joinSep (sep : String) : List String → String
  | [] => ""
  | [a] => a
  | a :: b :: rest => a ++ sep ++ joinSep sep (b :: rest)

/-- The `[LEVEL] message` rendering of one console-log entry. -/
def console_log_line (log : Json) : String :=
  let level := ((log.getField "level").bind Json.asStr).getD "info"
  let message := ((log.getField "message").bind Json.asStr).getD ""
  "[" ++ strToUpper level ++ "] " ++ message

def format_console_logs (data : Json) : String :=
  match data.asArr with
  | some logs =>
    let formatted_logs := joinSep "\n" (logs.map console_log_line)
    if formatted_logs = "" then "No console logs found."
    else "Console Logs:\n\n" ++ formatted_logs
  | none => "Console logs: " ++ toStringPretty data

def format_selected_element (data : Json) : String :=
  match data.getField "element" with
  | some element =>
    let tag_name := ((element.getField "tagName").bind Json.asStr).getD "unknown"
    let class_name := ((element.getField "className").bind Json.asStr).getD ""
    let id := ((element.getField "id").bind Json.asStr).getD ""
    let text := ((element.getField "innerText").bind Json.asStr).getD ""
    let element_info := "Selected DOM Element:\n- Tag: " ++ tag_name
    let element_info :=
      if id ≠ "" then element_info ++ "\n- ID: " ++ id else element_info
    let element_info :=
      if class_name ≠ "" then element_info ++ "\n- Classes: " ++ class_name
      else element_info
    let element_info :=
      if text ≠ "" then element_info ++ "\n- Text: " ++ text else element_info
    match (element.getField "outerHTML").bind Json.asStr with
    | some html => element_info ++ "\n\nHTML:\n" ++ html
    | none => element_info
  | none => "No DOM element selected. Click on an element in the browser to select it."

def format_browser_tools_response (endpoint : String) (data : Json) : String :=
  match endpoint with
  | "capture-screenshot" =>
    if ((data.getField "message").bind Json.asStr).isSome then
      "Successfully saved screenshot"
    else
      "Screenshot captured: " ++ toStringPretty data
  | "console-logs" => format_console_logs data
  | "console-errors" => format_console_logs data
  | "network-success" => "Network logs:\n\n" ++ toStringPretty data
  | "network-errors" => "Network logs:\n\n" ++ toStringPretty data
  | "wipelogs" =>
    (((data.getField "message").bind Json.asStr).map (fun s => s)).getD
      "Browser logs cleared successfully."
  | "selected-element" => format_selected_element data
  | "accessibility-audit" => format_audit_response endpoint data
  | "performance-audit" => format_audit_response endpoint data
  | "seo-audit" => format_audit_response endpoint data
  | "best-practices-audit" => format_audit_response endpoint data
  | "nextjs-audit" => format_audit_response endpoint data
  | "audit-all" => "Audit Mode Results:\n\n" ++ toStringPretty data
  | "debug-mode" => "Debugger Mode Results:\n\n" ++ toStringPretty data
  | _ => toStringPretty data

/-- `str::split(sep)` as a list of pieces (structural, over the char list). -/
def splitChar (sep : Char) (s : String) : List String :=
  (s.data.foldr
    (fun c acc =>
      match acc with
      | [] => [[c]]
      | g :: gs => if c == sep then [] :: g :: gs else (c :: g) :: gs)
    [[]]).map String.mk

def process_api_response (response : String) (api_url : String) : Except String String :=
  let endpoint := ((splitChar '/' api_url).getLast?).getD ""
  match parseApiResponse response with
  | Except.ok api_response =>
    if api_response.status = "success" then
      Except.ok (format_browser_tools_response endpoint api_response.data)
    else
      Except.ok ("Error from BrowserTools: " ++ api_response.message)
  | Except.error e =>
    match parseJsonStr response with
    | Except.ok json => Except.ok (format_browser_tools_response endpoint json)
    | Except.error _ =>
      Except.ok ("Raw response from BrowserTools (parse error: " ++ e ++ "): "
        ++ response)

/-- The command table (`get_api_params`): static lookup from a
(command, argument) pair to endpoint path, HTTP method and payload.  The
wall-clock reading (`get_current_timestamp`, milliseconds as i64) is an
explicit parameter. -/
def get_api_params (command_name : String) (arg : String) (timestamp : ℤ) :
    Except String (String × String × Json) :=
  match command_name, arg with
  | "browser-capture", "screenshot" =>
    Except.ok ("capture-screenshot", "POST", Json.obj [])
  | "browser-capture", "logs" =>
    Except.ok ("console-logs", "GET", Json.obj [])
  | "browser-capture", "errors" =>
    Except.ok ("console-errors", "GET", Json.obj [])
  | "browser-capture", "network" =>
    Except.ok ("network-success", "GET", Json.obj [])
  | "browser-capture", "network-errors" =>
    Except.ok ("network-errors", "GET", Json.obj [])
  | "browser-capture", "clear" =>
    Except.ok ("wipelogs", "POST", Json.obj [])
  | "browser-capture", "element" =>
    Except.ok ("selected-element", "GET", Json.obj [])
  | "browser-audit", "accessibility" =>
    Except.ok ("accessibility-audit", "POST", Json.obj
      [("category", Json.str "accessibility"),
       ("source", Json.str "zed_extension"),
       ("timestamp", Json.num (timestamp : ℚ))])
  | "browser-audit", "performance" =>
    Except.ok ("performance-audit", "POST", Json.obj
      [("category", Json.str "performance"),
       ("source", Json.str "zed_extension"),
       ("timestamp", Json.num (timestamp : ℚ))])
  | "browser-audit", "seo" =>
    Except.ok ("seo-audit", "POST", Json.obj
      [("category", Json.str "seo"),
       ("source", Json.str "zed_extension"),
       ("timestamp", Json.num (timestamp : ℚ))])
  | "browser-audit", "best-practices" =>
    Except.ok ("best-practices-audit", "POST", Json.obj
      [("category", Json.str "best-practices"),
       ("source", Json.str "zed_extension"),
       ("timestamp", Json.num (timestamp : ℚ))])
  | "browser-audit", "nextjs" =>
    Except.ok ("nextjs-audit", "POST", Json.obj
      [("source", Json.str "zed_extension"),
       ("timestamp", Json.num (timestamp : ℚ))])
  | "browser-audit", "all" =>
    Except.ok ("audit-all", "POST", Json.obj
      [("source", Json.str "zed_extension"),
       ("timestamp", Json.num (timestamp : ℚ))])
  | "browser-debug", "start" =>
    Except.ok ("debug-mode", "POST", Json.obj
      [("source", Json.str "zed_extension"),
       ("timestamp", Json.num (timestamp : ℚ))])
  | command, arg =>
    Except.error ("Unknown command or argument: " ++ command ++ " " ++ arg)

def get_section_label (command_name : String) (arg : String) : String :=
  match command_name, arg with
  | "browser-capture", "screenshot" => "Browser Screenshot"
  | "browser-capture", "logs" => "Browser Console Logs"
  | "browser-capture", "errors" => "Browser Console Errors"
  | "browser-capture", "network" => "Browser Network Logs"
  | "browser-capture", "network-errors" => "Browser Network Errors"
  | "browser-capture", "clear" => "Clear Logs"
  | "browser-capture", "element" => "DOM Element"
  | "browser-audit", "accessibility" => "Accessibility Audit"
  | "browser-audit", "performance" => "Performance Audit"
  | "browser-audit", "seo" => "SEO Audit"
  | "browser-audit", "best-practices" => "Best Practices Audit"
  | "browser-audit", "nextjs" => "NextJS Audit"
  | "browser-audit", "all" => "All Audits"
  | "browser-debug", "start" => "Debugger Mode"
  | _, _ => "Browser Tools"

def get_error_message (command_name : String) (arg : String) : String :=
  match command_name, arg with
  | "browser-capture", "screenshot" =>
    "Failed to capture screenshot. Make sure BrowserTools extension is running in Chrome."
  | "browser-capture", "logs" =>
    "Failed to retrieve console logs. Make sure BrowserTools extension is running in Chrome."
  | "browser-capture", "errors" =>
    "Failed to retrieve console errors. Make sure BrowserTools extension is running in Chrome."
  | "browser-capture", "network" =>
    "Failed to retrieve network logs. Make sure BrowserTools extension is running in Chrome."
  | "browser-capture", "network-errors" =>
    "Failed to retrieve network errors. Make sure BrowserTools extension is running in Chrome."
  | "browser-capture", "clear" =>
    "Failed to clear logs. Make sure BrowserTools extension is running in Chrome."
  | "browser-capture", "element" =>
    "Failed to get DOM element. Make sure BrowserTools extension is running in Chrome."
  | "browser-audit", _ =>
    "Failed to run audit. Make sure BrowserTools extension is running in Chrome."
  | "browser-debug", _ =>
    "Failed to start debugger. Make sure BrowserTools extension is running in Chrome."
  | _, _ => "Unknown command"

/-- One HTTP request as handed to the transport
(`call_browsertools_api`'s url, method and params). -/
structure HttpRequest where
  url : String
  method : String
  params : Json

/-- The HTTP transport: body text of the reply, or a transport error. -/
def Transport : Type :=
  HttpRequest → Except String String

/-- `process_api_request`: one transport call, normalizing the reply on
success and wrapping the cause with the command-specific hint on failure. -/
def process_api_request (transport : Transport) (api_url : String) (method : String)
    (api_params : Json) (command_name : String) (arg : String) : Except String String :=
  match transport ⟨api_url, method, api_params⟩ with
  | Except.ok response => process_api_response response api_url
  | Except.error e =>
    Except.error (get_error_message command_name arg ++ " Error: " ++ e)

structure SlashCommandOutputSection where
  rangeStart : ℕ
  rangeEnd : ℕ
  label : String

structure SlashCommandOutput where
  sections : List SlashCommandOutputSection
  text : String

/-- The dispatcher (`run_slash_command`), with the transport explicit and a
trace of every request handed to it.  `args.first().map(as_str).unwrap_or("")`
becomes `args.head?.getD ""`; the section range is the byte range of the
result text. -/
def run_slash_command (host : String) (port : ℕ) (transport : Transport)
    (command_name : String) (args : List String) (timestamp : ℤ) :
    Except String SlashCommandOutput × List HttpRequest :=
  let arg := args.head?.getD ""
  if arg = "" then
    (Except.error "No argument provided. Please select an option.", [])
  else
    match get_api_params command_name arg timestamp with
    | Except.error e => (Except.error e, [])
    | Except.ok (api_endpoint, method, api_params) =>
      let api_url := "http://" ++ host ++ ":" ++ toString port ++ "/" ++ api_endpoint
      let req : HttpRequest := ⟨api_url, method, api_params⟩
      match process_api_request transport api_url method api_params command_name arg with
      | Except.error e => (Except.error e, [req])
      | Except.ok result_text =>
        (Except.ok
          ⟨[⟨0, result_text.utf8ByteSize, get_section_label command_name arg⟩],
           result_text⟩,
         [req])

/-- Substring test (used to state the spec's "output contains" examples). -/
def containsSubstr (s t : String) : Bool :=
  (List.range (s.data.length + 1)).any (fun i => t.data.isPrefixOf (s.data.drop i))

/-- The defined (command, argument) pairs and their endpoints, as enumerated
by the spec's external-interface list (the spec side of claim C1). -/
def specEndpoint (command_name : String) (arg : String) : Option String :=
  match command_name, arg with
  | "browser-capture", "screenshot" => some "capture-screenshot"
  | "browser-capture", "logs" => some "console-logs"
  | "browser-capture", "errors" => some "console-errors"
  | "browser-capture", "network" => some "network-success"
  | "browser-capture", "network-errors" => some "network-errors"
  | "browser-capture", "clear" => some "wipelogs"
  | "browser-capture", "element" => some "selected-element"
  | "browser-audit", "accessibility" => some "accessibility-audit"
  | "browser-audit", "performance" => some "performance-audit"
  | "browser-audit", "seo" => some "seo-audit"
  | "browser-audit", "best-practices" => some "best-practices-audit"
  | "browser-audit", "nextjs" => some "nextjs-audit"
  | "browser-audit", "all" => some "audit-all"
  | "browser-debug", "start" => some "debug-mode"
  | _, _ => none

/-! Helper lemmas: the `mkRat`-based arithmetic agrees with the field
operations on ℚ, and string/list facts used by the formatter proofs. -/

theorem ratMul_eq_mul (a b : ℚ) : ratMul a b = a * b := by
  rw [ratMul, Rat.mkRat_eq_divInt, Rat.divInt_eq_div]
  push_cast
  rw [← div_mul_div_comm, Rat.num_div_den, Rat.num_div_den]

theorem ratAdd_eq_add (a b : ℚ) : ratAdd a b = a + b := by
  have ha : (a.den : ℚ) ≠ 0 := Nat.cast_ne_zero.mpr a.den_nz
  have hb : (b.den : ℚ) ≠ 0 := Nat.cast_ne_zero.mpr b.den_nz
  rw [ratAdd, Rat.mkRat_eq_divInt, Rat.divInt_eq_div]
  push_cast
  conv_rhs => rw [← Rat.num_div_den a, ← Rat.num_div_den b]
  rw [div_add_div _ _ ha hb]
  ring_nf

theorem ratFloor_eq_floor (q : ℚ) : ratFloor q = ⌊q⌋ := by
  rw [ratFloor, Rat.floor_def]
  exact Int.fdiv_eq_ediv _ (by positivity)

theorem mkRat_one_two : (mkRat 1 2 : ℚ) = 1 / 2 := by
  rw [Rat.mkRat_eq_divInt, Rat.divInt_eq_div]
  norm_num

theorem rust_round_of_nonneg {q : ℚ} (h : 0 ≤ q) : rust_round q = ⌊q + 1 / 2⌋ := by
  rw [rust_round, if_pos h, ratAdd_eq_add, mkRat_one_two, ratFloor_eq_floor]

theorem i32_sat_of_range {n : ℤ} (h0 : 0 ≤ n) (h1 : n ≤ 100) : i32_sat n = n := by
  unfold i32_sat
  split
  · omega
  · split
    · omega
    · rfl

theorem joinSep_ne_empty (sep a : String) (as : List String) (ha : a ≠ "") :
    joinSep sep (a :: as) ≠ "" := by
  cases as with
  | nil => simpa [joinSep]
  | cons b bs =>
    simp only [joinSep]
    intro he
    apply ha
    have hd := congrArg String.data he
    simp only [String.data_append] at hd
    rcases List.append_eq_nil.mp (List.append_eq_nil.mp hd).1 with ⟨h1, _⟩
    exact String.ext h1

theorem console_log_line_ne_empty (log : Json) : console_log_line log ≠ "" := by
  simp only [console_log_line]
  intro he
  have hd := congrArg String.data he
  simp only [String.data_append] at hd
  have := (List.append_eq_nil.mp (List.append_eq_nil.mp (List.append_eq_nil.mp hd).1).1).1
  simp at this

theorem str_append_ne_empty (s t : String) (h : s ≠ "") : s ++ t ≠ "" := by
  intro he
  apply h
  have hd := congrArg String.data he
  simp only [String.data_append] at hd
  exact String.ext (List.append_eq_nil.mp hd).1

set_option maxHeartbeats 1000000 in
/-- Characterization of the audit/debug payload timestamps: whenever the
command table succeeds for a `browser-audit` or `browser-debug` command, the
payload's `timestamp` field is exactly the wall-clock reading passed in. -/
theorem get_api_params_timestamp (cmd arg : String) (ts : ℤ) (e m : String) (p : Json)
    (hok : get_api_params cmd arg ts = Except.ok (e, m, p))
    (hcmd : cmd = "browser-audit" ∨ cmd = "browser-debug") :
    p.getField "timestamp" = some (Json.num (ts : ℚ)) := by
  unfold get_api_params at hok
  split at hok
  case _ => rcases hcmd with h | h <;> simp at h
  case _ => rcases hcmd with h | h <;> simp at h
  case _ => rcases hcmd with h | h <;> simp at h
  case _ => rcases hcmd with h | h <;> simp at h
  case _ => rcases hcmd with h | h <;> simp at h
  case _ => rcases hcmd with h | h <;> simp at h
  case _ => rcases hcmd with h | h <;> simp at h
  case _ =>
    simp only [Except.ok.injEq, Prod.mk.injEq] at hok
    obtain ⟨-, -, h3⟩ := hok
    subst h3
    rfl
  case _ =>
    simp only [Except.ok.injEq, Prod.mk.injEq] at hok
    obtain ⟨-, -, h3⟩ := hok
    subst h3
    rfl
  case _ =>
    simp only [Except.ok.injEq, Prod.mk.injEq] at hok
    obtain ⟨-, -, h3⟩ := hok
    subst h3
    rfl
  case _ =>
    simp only [Except.ok.injEq, Prod.mk.injEq] at hok
    obtain ⟨-, -, h3⟩ := hok
    subst h3
    rfl
  case _ =>
    simp only [Except.ok.injEq, Prod.mk.injEq] at hok
    obtain ⟨-, -, h3⟩ := hok
    subst h3
    rfl
  case _ =>
    simp only [Except.ok.injEq, Prod.mk.injEq] at hok
    obtain ⟨-, -, h3⟩ := hok
    subst h3
    rfl
  case _ =>
    simp only [Except.ok.injEq, Prod.mk.injEq] at hok
    obtain ⟨-, -, h3⟩ := hok
    subst h3
    rfl
  case _ => exact Except.noConfusion hok

set_option maxHeartbeats 1600000 in
/-- C1: for every (command, argument) pair, the command-table lookup either
returns Ok with exactly the endpoint the external-interface list assigns to
that pair (`specEndpoint`), or — when the pair is outside the statically
defined set — the error "Unknown command or argument: <command> <arg>";
these are the only possible outcomes. -/
theorem c1_command_table_lookup (cmd arg : String) (ts : ℤ) :
    (∃ e m p, get_api_params cmd arg ts = Except.ok (e, m, p) ∧
      specEndpoint cmd arg = some e) ∨
    (get_api_params cmd arg ts =
        Except.error ("Unknown command or argument: " ++ cmd ++ " " ++ arg) ∧
      specEndpoint cmd arg = none) := by
  unfold get_api_params
  split
  case _ => exact Or.inl ⟨_, _, _, rfl, rfl⟩
  case _ => exact Or.inl ⟨_, _, _, rfl, rfl⟩
  case _ => exact Or.inl ⟨_, _, _, rfl, rfl⟩
  case _ => exact Or.inl ⟨_, _, _, rfl, rfl⟩
  case _ => exact Or.inl ⟨_, _, _, rfl, rfl⟩
  case _ => exact Or.inl ⟨_, _, _, rfl, rfl⟩
  case _ => exact Or.inl ⟨_, _, _, rfl, rfl⟩
  case _ => exact Or.inl ⟨_, _, _, rfl, rfl⟩
  case _ => exact Or.inl ⟨_, _, _, rfl, rfl⟩
  case _ => exact Or.inl ⟨_, _, _, rfl, rfl⟩
  case _ => exact Or.inl ⟨_, _, _, rfl, rfl⟩
  case _ => exact Or.inl ⟨_, _, _, rfl, rfl⟩
  case _ => exact Or.inl ⟨_, _, _, rfl, rfl⟩
  case _ => exact Or.inl ⟨_, _, _, rfl, rfl⟩
  case _ =>
    refine Or.inr ⟨rfl, ?_⟩
    unfold specEndpoint
    split <;> simp_all

/-- C2: the response normalizer returns Ok with some display text for every
endpoint string and raw response string whatsoever, and a reply whose
envelope parses with a non-success status is rendered as returned text
("Error from BrowserTools: <message>"), not raised as an error. -/
theorem c2_normalizer_never_fails (response api_url : String) :
    (∃ t, process_api_response response api_url = Except.ok t) ∧
    (∀ r, parseApiResponse response = Except.ok r → r.status ≠ "success" →
      process_api_response response api_url =
        Except.ok ("Error from BrowserTools: " ++ r.message)) := by
  constructor
  · cases hpe : parseApiResponse response with
    | error e =>
      cases hjs : parseJsonStr response with
      | error e2 =>
        have h : process_api_response response api_url =
            Except.ok ("Raw response from BrowserTools (parse error: " ++ e ++ "): "
              ++ response) := by
          simp [process_api_response, hpe, hjs]
        exact ⟨_, h⟩
      | ok j =>
        have h : process_api_response response api_url =
            Except.ok (format_browser_tools_response
              (((splitChar '/' api_url).getLast?).getD "") j) := by
          simp [process_api_response, hpe, hjs]
        exact ⟨_, h⟩
    | ok r =>
      by_cases hs : r.status = "success"
      · have h : process_api_response response api_url =
            Except.ok (format_browser_tools_response
              (((splitChar '/' api_url).getLast?).getD "") r.data) := by
          simp [process_api_response, hpe, hs]
        exact ⟨_, h⟩
      · have h : process_api_response response api_url =
            Except.ok ("Error from BrowserTools: " ++ r.message) := by
          simp [process_api_response, hpe, hs]
        exact ⟨_, h⟩
  · intro r hr hs
    simp [process_api_response, hr, hs]

theorem c2_normalizer_never_fails_witness :
    process_api_response "\x7b\"status\":\"error\",\"message\":\"boom\"\x7d" "u" =
      Except.ok ("Error from BrowserTools: " ++ "boom") :=
  (c2_normalizer_never_fails "\x7b\"status\":\"error\",\"message\":\"boom\"\x7d" "u").2
    ⟨"error", Json.null, "boom"⟩ (by rfl) (by decide)

/-- C3: the normalizer degrades in exactly this order.  Tier 1: if the raw
text parses as the envelope, a success status dispatches the endpoint
formatter on `data`, any other status renders "Error from BrowserTools:
<message>".  Tier 2: if envelope parsing fails but the text parses as
arbitrary JSON, the same endpoint formatter is applied to that JSON.
Tier 3: otherwise the raw text is returned verbatim, prefixed with a note
carrying the underlying (envelope) parse error. -/
theorem c3_three_tier_degradation (response api_url : String) :
    (∀ r, parseApiResponse response = Except.ok r →
      (r.status = "success" →
        process_api_response response api_url =
          Except.ok (format_browser_tools_response
            (((splitChar '/' api_url).getLast?).getD "") r.data)) ∧
      (r.status ≠ "success" →
        process_api_response response api_url =
          Except.ok ("Error from BrowserTools: " ++ r.message))) ∧
    (∀ e, parseApiResponse response = Except.error e →
      (∀ j, parseJsonStr response = Except.ok j →
        process_api_response response api_url =
          Except.ok (format_browser_tools_response
            (((splitChar '/' api_url).getLast?).getD "") j)) ∧
      (∀ e2, parseJsonStr response = Except.error e2 →
        process_api_response response api_url =
          Except.ok ("Raw response from BrowserTools (parse error: " ++ e ++ "): "
            ++ response))) := by
  constructor
  · intro r hr
    constructor
    · intro hs
      simp [process_api_response, hr, hs]
    · intro hs
      simp [process_api_response, hr, hs]
  · intro e he
    constructor
    · intro j hj
      simp [process_api_response, he, hj]
    · intro e2 he2
      simp [process_api_response, he, he2]

theorem c3_three_tier_degradation_witness :
    process_api_response "\x7b\"status\":\"success\",\"data\":\x7b\x7d\x7d"
        "http://127.0.0.1:3025/wipelogs" =
      Except.ok (format_browser_tools_response "wipelogs" (Json.obj [])) :=
  ((c3_three_tier_degradation "\x7b\"status\":\"success\",\"data\":\x7b\x7d\x7d"
      "http://127.0.0.1:3025/wipelogs").1
    ⟨"success", Json.obj [], ""⟩ (by rfl)).1 (by rfl)

/-- C4: for every command name (known or not) and every argument list whose
first element is missing or empty, the dispatcher returns the
"No argument provided" error and the transport is never invoked (the
request trace is empty), for every host, port and transport. -/
theorem c4_missing_argument (host : String) (port : ℕ) (transport : Transport)
    (cmd : String) (args : List String) (ts : ℤ)
    (h : args.head?.getD "" = "") :
    run_slash_command host port transport cmd args ts =
      (Except.error "No argument provided. Please select an option.", []) := by
  simp [run_slash_command, h]

theorem c4_missing_argument_witness :
    run_slash_command "127.0.0.1" 3025 (fun _ => Except.error "connection refused")
        "browser-capture" [] 0 =
      (Except.error "No argument provided. Please select an option.", []) :=
  c4_missing_argument "127.0.0.1" 3025 (fun _ => Except.error "connection refused")
    "browser-capture" [] 0 (by rfl)

theorem c5_payload_shape_counterexample :
    get_api_params "browser-audit" "nextjs" 0 =
      Except.ok ("nextjs-audit", "POST",
        Json.obj [("source", Json.str "zed_extension"), ("timestamp", Json.num 0)]) ∧
    (Json.obj [("source", Json.str "zed_extension"),
      ("timestamp", Json.num 0)]).getField "category" = none :=
  ⟨rfl, rfl⟩

set_option maxHeartbeats 800000 in
/-- C5 (amended): capture payloads are the empty JSON object; the
accessibility, performance, seo and best-practices audit payloads embed a
category tag, the fixed source identifier "zed_extension" and the wall-clock
timestamp captured on that invocation; the nextjs and all audits and the
debug action embed only the source identifier and the timestamp — no
category tag. -/
theorem c5_payload_shapes (ts : ℤ) :
    get_api_params "browser-capture" "screenshot" ts =
      Except.ok ("capture-screenshot", "POST", Json.obj []) ∧
    get_api_params "browser-capture" "logs" ts =
      Except.ok ("console-logs", "GET", Json.obj []) ∧
    get_api_params "browser-capture" "errors" ts =
      Except.ok ("console-errors", "GET", Json.obj []) ∧
    get_api_params "browser-capture" "network" ts =
      Except.ok ("network-success", "GET", Json.obj []) ∧
    get_api_params "browser-capture" "network-errors" ts =
      Except.ok ("network-errors", "GET", Json.obj []) ∧
    get_api_params "browser-capture" "clear" ts =
      Except.ok ("wipelogs", "POST", Json.obj []) ∧
    get_api_params "browser-capture" "element" ts =
      Except.ok ("selected-element", "GET", Json.obj []) ∧
    get_api_params "browser-audit" "accessibility" ts =
      Except.ok ("accessibility-audit", "POST", Json.obj
        [("category", Json.str "accessibility"),
         ("source", Json.str "zed_extension"),
         ("timestamp", Json.num (ts : ℚ))]) ∧
    get_api_params "browser-audit" "performance" ts =
      Except.ok ("performance-audit", "POST", Json.obj
        [("category", Json.str "performance"),
         ("source", Json.str "zed_extension"),
         ("timestamp", Json.num (ts : ℚ))]) ∧
    get_api_params "browser-audit" "seo" ts =
      Except.ok ("seo-audit", "POST", Json.obj
        [("category", Json.str "seo"),
         ("source", Json.str "zed_extension"),
         ("timestamp", Json.num (ts : ℚ))]) ∧
    get_api_params "browser-audit" "best-practices" ts =
      Except.ok ("best-practices-audit", "POST", Json.obj
        [("category", Json.str "best-practices"),
         ("source", Json.str "zed_extension"),
         ("timestamp", Json.num (ts : ℚ))]) ∧
    get_api_params "browser-audit" "nextjs" ts =
      Except.ok ("nextjs-audit", "POST", Json.obj
        [("source", Json.str "zed_extension"),
         ("timestamp", Json.num (ts : ℚ))]) ∧
    get_api_params "browser-audit" "all" ts =
      Except.ok ("audit-all", "POST", Json.obj
        [("source", Json.str "zed_extension"),
         ("timestamp", Json.num (ts : ℚ))]) ∧
    get_api_params "browser-debug" "start" ts =
      Except.ok ("debug-mode", "POST", Json.obj
        [("source", Json.str "zed_extension"),
         ("timestamp", Json.num (ts : ℚ))]) ∧
    (Json.obj [("source", Json.str "zed_extension"),
      ("timestamp", Json.num (ts : ℚ))]).getField "category" = none :=
  ⟨rfl, rfl, rfl, rfl, rfl, rfl, rfl, rfl, rfl, rfl, rfl, rfl, rfl, rfl, rfl⟩

theorem c6_header_counterexample :
    format_console_logs (Json.arr []) = "No console logs found." ∧
    format_console_logs (Json.arr []) ≠ "Console Logs:\n\nNo console logs found." :=
  ⟨rfl, by decide⟩

/-- C6 (amended): for the console-logs/console-errors formatter, an empty
JSON array yields exactly the bare string "No console logs found." with no
header wrapper; each entry of a non-empty array renders as "[LEVEL] message"
(level defaulting to "info", message defaulting to empty), newline-joined
under the "Console Logs:" header; a non-array payload falls back to the
labeled pretty-print. -/
theorem c6_console_logs (l : Json) (rest : List Json) :
    format_console_logs (Json.arr []) = "No console logs found." ∧
    (∀ log, console_log_line log =
      "[" ++ strToUpper (((log.getField "level").bind Json.asStr).getD "info") ++ "] " ++
        ((log.getField "message").bind Json.asStr).getD "") ∧
    format_console_logs (Json.arr (l :: rest)) =
      "Console Logs:\n\n" ++ joinSep "\n" ((l :: rest).map console_log_line) ∧
    (∀ data, data.asArr = none →
      format_console_logs data = "Console logs: " ++ toStringPretty data) := by
  refine ⟨by rfl, fun log => rfl, ?_, ?_⟩
  · have hne := joinSep_ne_empty "\n" (console_log_line l) (rest.map console_log_line)
      (console_log_line_ne_empty l)
    simp only [format_console_logs, Json.asArr, List.map]
    rw [if_neg hne]
  · intro data h
    simp [format_console_logs, h]

theorem c6_console_logs_witness :
    format_console_logs Json.null = "Console logs: " ++ toStringPretty Json.null :=
  (c6_console_logs (Json.obj []) []).2.2.2 Json.null (by rfl)

theorem c7_score_rounding_counterexample :
    process_api_response
        "\x7b\"status\":\"success\",\"data\":\x7b\"score\":0.145,\"issues\":[]\x7d\x7d"
        "http://127.0.0.1:3025/accessibility-audit" =
      Except.ok "Accessibility Audit Results:\n\nOverall Score: 14%\n\nNo issues found!" ∧
    rust_round (ratMul (mkRat 29 200) 100) = 15 ∧
    containsSubstr "Accessibility Audit Results:\n\nOverall Score: 14%\n\nNo issues found!"
        "Overall Score: 15%" = false :=
  ⟨rfl, by decide, rfl⟩

/-- C7 (amended): for each of the five singular audit endpoints, an
extractable numeric score s in [0,1] renders as the whole-percentage line
computed in f64 arithmetic — the stored score is the binary64 nearest the
response literal, and the percentage is f64::round of the binary64 product
score × 100 with a saturating i32 cast (`audit_percentage`) — at the head
of the audit report; this can differ by one from the exact round(s·100)
(score 0.145 renders 14%, not 15%).  An empty issues array renders
"No issues found!".  On the concrete example — browser-audit accessibility
with remote reply status success, score 0.87, issues [] — the output
contains both "Overall Score: 87%" and "No issues found!". -/
theorem c7_audit_score_f64 (endpoint : String) (data : Json) (s : ℚ)
    (hend : endpoint ∈ ["accessibility-audit", "performance-audit", "seo-audit",
      "best-practices-audit", "nextjs-audit"])
    (hscore : (data.getField "score").bind Json.asF64 = some s)
    (h0 : 0 ≤ s) (h1 : s ≤ 1) :
    format_browser_tools_response endpoint data = format_audit_response endpoint data ∧
    audit_score_part data =
      "Overall Score: " ++ toString (audit_percentage s) ++ "%\n" ∧
    format_audit_response endpoint data =
      audit_type_name endpoint ++ " Audit Results:\n\n" ++
        ("Overall Score: " ++ toString (audit_percentage s) ++ "%\n") ++
        audit_issues_part data ∧
    ((data.getField "issues").bind Json.asArr = some [] →
      audit_issues_part data = "\nNo issues found!") ∧
    process_api_response "\x7b\"status\":\"success\",\"data\":\x7b\"score\":0.87,\"issues\":[]\x7d\x7d"
        "http://127.0.0.1:3025/accessibility-audit" =
      Except.ok "Accessibility Audit Results:\n\nOverall Score: 87%\n\nNo issues found!" ∧
    containsSubstr "Accessibility Audit Results:\n\nOverall Score: 87%\n\nNo issues found!"
        "Overall Score: 87%" = true ∧
    containsSubstr "Accessibility Audit Results:\n\nOverall Score: 87%\n\nNo issues found!"
        "No issues found!" = true := by
  have hscoreEq : audit_score_part data =
      "Overall Score: " ++ toString (audit_percentage s) ++ "%\n" := by
    simp only [audit_score_part, hscore]
  have hdispatch : format_browser_tools_response endpoint data =
      format_audit_response endpoint data := by
    fin_cases hend <;> rfl
  refine ⟨hdispatch, hscoreEq, ?_, ?_, by rfl, by rfl, by rfl⟩
  · have hne : audit_score_part data ≠ "" := by
      rw [hscoreEq]
      exact str_append_ne_empty _ _ (str_append_ne_empty _ _ (by decide))
    simp only [format_audit_response]
    rw [if_pos (Or.inl hne), hscoreEq]
  · intro h
    simp [audit_issues_part, h]

theorem c7_audit_score_f64_witness :
    audit_score_part (Json.obj [("score", Json.num (mkRat 87 100)),
        ("issues", Json.arr [])]) =
      "Overall Score: " ++
        toString (audit_percentage (mkRat 7836263351624663 9007199254740992)) ++ "%\n" :=
  (c7_audit_score_f64 "accessibility-audit"
    (Json.obj [("score", Json.num (mkRat 87 100)), ("issues", Json.arr [])])
    (mkRat 7836263351624663 9007199254740992)
    (by decide) (by rfl) (by decide) (by decide)).2.1

/-- C8: whenever the success-envelope data payload carries no `element`
field, the selected-element formatter (and hence the full normalizer on the
selected-element endpoint) produces exactly the fixed "nothing selected"
sentence, with no other content; in particular on the empty object. -/
theorem c8_selected_element_empty :
    (∀ data, data.getField "element" = none →
      format_selected_element data =
        "No DOM element selected. Click on an element in the browser to select it.") ∧
    (∀ response r, parseApiResponse response = Except.ok r → r.status = "success" →
      r.data.getField "element" = none →
      process_api_response response "http://127.0.0.1:3025/selected-element" =
        Except.ok
          "No DOM element selected. Click on an element in the browser to select it.") ∧
    process_api_response "\x7b\"status\":\"success\",\"data\":\x7b\x7d\x7d"
        "http://127.0.0.1:3025/selected-element" =
      Except.ok "No DOM element selected. Click on an element in the browser to select it."
    := by
  have hfmt : ∀ data : Json, data.getField "element" = none →
      format_selected_element data =
        "No DOM element selected. Click on an element in the browser to select it." := by
    intro data h
    simp [format_selected_element, h]
  refine ⟨hfmt, ?_, by rfl⟩
  intro response r hr hs hel
  have hend : ((splitChar '/' "http://127.0.0.1:3025/selected-element").getLast?).getD ""
      = "selected-element" := by rfl
  simp [process_api_response, hr, hs, hend, format_browser_tools_response, hfmt r.data hel]

theorem c8_selected_element_empty_witness :
    format_selected_element (Json.obj []) =
      "No DOM element selected. Click on an element in the browser to select it." :=
  c8_selected_element_empty.1 (Json.obj []) (by rfl)

theorem c9_clock_regression_counterexample :
    get_api_params "browser-audit" "seo" 1 =
      Except.ok ("seo-audit", "POST", Json.obj
        [("category", Json.str "seo"), ("source", Json.str "zed_extension"),
         ("timestamp", Json.num 1)]) ∧
    get_api_params "browser-audit" "seo" 0 =
      Except.ok ("seo-audit", "POST", Json.obj
        [("category", Json.str "seo"), ("source", Json.str "zed_extension"),
         ("timestamp", Json.num 0)]) ∧
    ¬ ((1 : ℚ) ≤ 0) :=
  ⟨rfl, rfl, by norm_num⟩

/-- C9 (amended): every audit and debug payload includes a timestamp field
equal to the wall-clock reading captured at that invocation, and across any
two calls the later payload's timestamp is greater than or equal to the
earlier one's whenever the underlying clock readings are non-decreasing;
the code adds no monotonicity of its own (the system clock it reads is not
guaranteed monotonic). -/
theorem c9_timestamp_nondecreasing (cmd1 arg1 : String) (ts1 : ℤ) (e1 m1 : String)
    (p1 : Json) (cmd2 arg2 : String) (ts2 : ℤ) (e2 m2 : String) (p2 : Json)
    (h1 : get_api_params cmd1 arg1 ts1 = Except.ok (e1, m1, p1))
    (h2 : get_api_params cmd2 arg2 ts2 = Except.ok (e2, m2, p2))
    (hc1 : cmd1 = "browser-audit" ∨ cmd1 = "browser-debug")
    (hc2 : cmd2 = "browser-audit" ∨ cmd2 = "browser-debug")
    (hts : ts1 ≤ ts2) :
    p1.getField "timestamp" = some (Json.num (ts1 : ℚ)) ∧
    p2.getField "timestamp" = some (Json.num (ts2 : ℚ)) ∧
    (ts1 : ℚ) ≤ (ts2 : ℚ) :=
  ⟨get_api_params_timestamp cmd1 arg1 ts1 e1 m1 p1 h1 hc1,
   get_api_params_timestamp cmd2 arg2 ts2 e2 m2 p2 h2 hc2,
   by exact_mod_cast hts⟩

theorem c9_timestamp_nondecreasing_witness :
    (Json.obj [("source", Json.str "zed_extension"),
      ("timestamp", Json.num 2)]).getField "timestamp" = some (Json.num 2) ∧
    (Json.obj [("source", Json.str "zed_extension"),
      ("timestamp", Json.num 5)]).getField "timestamp" = some (Json.num 5) ∧
    ((2 : ℤ) : ℚ) ≤ ((5 : ℤ) : ℚ) :=
  c9_timestamp_nondecreasing "browser-audit" "all" 2 "audit-all" "POST"
    (Json.obj [("source", Json.str "zed_extension"), ("timestamp", Json.num 2)])
    "browser-debug" "start" 5 "debug-mode" "POST"
    (Json.obj [("source", Json.str "zed_extension"), ("timestamp", Json.num 5)])
    (by rfl) (by rfl) (Or.inl rfl) (Or.inr rfl) (by decide)

/-- C10: the dispatcher consults only the first element of its argument
list: for every command name, host, port, transport, and any two argument
lists whose first elements are equal (or both absent), the two invocations
produce identical results — arguments beyond the first never influence the
outcome, the request issued, the output text, the section label, or any
error. -/
theorem c10_only_first_argument (host : String) (port : ℕ) (transport : Transport)
    (cmd : String) (args1 args2 : List String) (ts : ℤ)
    (h : args1.head? = args2.head?) :
    run_slash_command host port transport cmd args1 ts =
      run_slash_command host port transport cmd args2 ts := by
  simp only [run_slash_command, h]

theorem c10_only_first_argument_witness :
    run_slash_command "127.0.0.1" 3025 (fun _ => Except.error "down") "browser-capture"
        ["logs", "extra", "arguments"] 0 =
      run_slash_command "127.0.0.1" 3025 (fun _ => Except.error "down") "browser-capture"
        ["logs"] 0 :=
  c10_only_first_argument "127.0.0.1" 3025 (fun _ => Except.error "down") "browser-capture"
    ["logs", "extra", "arguments"] ["logs"] 0 (by rfl)

end BrowserTools
